import Mathlib

/-!
Shallow embedding of `src/script.py` (class `DetecteurIncoherenceTaille`):
an anthropometric-record consistency checker.  Numeric values are modelled
as rationals, optional record fields (dict keys that may be absent or
`None`) as `Option`, and the human-readable error / warning strings as
tags identifying the rule that fired.
-/

namespace Script

/-- Tags for the hard-error strings appended to `erreurs` in
`valider_donnees`, one constructor per `erreurs.append(...)` site. -/
inductive Err where
  | champManquant (champ : String)
  | ageInvalide
  | sexeInvalide
  | tailleInvalide
  | poidsInvalide
  | tailleIncoherente
  | imcExtreme
  | ratioTourTaille
  | ratioEnvergure
  | ratioJambe
  | poidsAdulteIncoherent
  | tourSupEnvergure
  | jambeSupEnvergure
  deriving DecidableEq, Repr

/-- Tags for the soft-warning strings appended to `avertissements`,
one constructor per `avertissements.append(...)` site. -/
inductive Avert where
  | imcInhabituel
  | envergureAtypique
  | poidsEnfantInhabituel
  deriving DecidableEq, Repr

/-- The `ValidationResult` dataclass of the source. -/
structure ValidationResult where
  est_valide : Bool
  erreurs : List Err
  avertissements : List Avert
  score_coherence : ℚ
  deriving DecidableEq, Repr

/-- The input dictionary `donnees`.  A key that is absent or mapped to
`None` is `none` here (both behave identically everywhere in the source:
the required-field check tests `champ not in donnees or donnees[champ] is
None`, and the optional-measurement guards test `'k' in donnees and
donnees['k']`, where `None` is falsy).  The unused parental-height keys
are omitted since no code reads them. -/
structure Donnees where
  age : Option ℚ
  sexe : Option String
  taille : Option ℚ
  poids : Option ℚ
  tour_taille : Option ℚ
  envergure : Option ℚ
  longueur_jambe : Option ℚ
  deriving DecidableEq, Repr

/-- Model of Python `str.lower()`, used on the `sexe` field: lowercase
every character.  (`Char.toLower` covers the ASCII range, which is all
the subsequent `= "homme"` / `= "femme"` comparisons can distinguish.) -/
def minuscule (s : String) : String := ⟨s.data.map Char.toLower⟩

/-- `self.taille_normale`: normal height ranges keyed by sex then by
half-open age interval, in the source's (insertion) order. -/
def taille_normale (sexe : String) : List ((ℚ × ℚ) × (ℚ × ℚ)) :=
  if sexe = "homme" then
    [((0, 2), (50, 90)), ((2, 5), (85, 115)), ((5, 10), (105, 145)),
     ((10, 15), (130, 180)), ((15, 20), (155, 200)), ((20, 150), (150, 210))]
  else if sexe = "femme" then
    [((0, 2), (48, 88)), ((2, 5), (83, 112)), ((5, 10), (103, 142)),
     ((10, 15), (130, 175)), ((15, 20), (150, 185)), ((20, 150), (145, 195))]
  else []

/-- `self.ratios_normaux['tour_taille_taille']`. -/
def ratios_normaux_tour_taille_taille : ℚ × ℚ := (35/100, 55/100)

/-- `self.ratios_normaux['envergure_taille']`. -/
def ratios_normaux_envergure_taille : ℚ × ℚ := (98/100, 106/100)

/-- `self.ratios_normaux['longueur_jambe_taille']`. -/
def ratios_normaux_longueur_jambe_taille : ℚ × ℚ := (45/100, 53/100)

/-- `_obtenir_plage_taille(age, sexe)`: `None` when the sex is not a key
of the table, else the first interval entry with `age_min <= age <
age_max`, `None` when no interval matches. -/
def obtenir_plage_taille (age : ℚ) (sexe : String) : Option (ℚ × ℚ) :=
  if sexe = "homme" ∨ sexe = "femme" then
    (taille_normale sexe).findSome?
      (fun entree => if entree.1.1 ≤ age ∧ age < entree.1.2 then some entree.2 else none)
  else none

/-- `_estimer_poids_enfant(age, taille, sexe)`; the `sexe` parameter is
accepted but unused, as in the source. -/
def estimer_poids_enfant (age : ℚ) (taille : ℚ) (sexe : String) : ℚ :=
  if age < 2 then age * 3 + 7
  else if age < 12 then age * 2 + 8
  else 19 * ((taille / 100) ^ 2)

/-- Step 0 of `valider_donnees`: one error per required key that is
absent or `None`, iterating `['age', 'sexe', 'taille', 'poids']` in
order.  Each missing key also deducts 25 points, i.e. the deduction is
25 times the length of this list. -/
def erreurs_champs_manquants (d : Donnees) : List Err :=
  (if d.age = none then [Err.champManquant "age"] else []) ++
  (if d.sexe = none then [Err.champManquant "sexe"] else []) ++
  (if d.taille = none then [Err.champManquant "taille"] else []) ++
  (if d.poids = none then [Err.champManquant "poids"] else [])

/-- Step 1 (`# 1. Validation des valeurs de base`): the four base-bounds
checks, each deducting 20 on violation; returns the errors in source
order and the total deduction. -/
def etape1 (age : ℚ) (sexe : String) (taille poids : ℚ) : List Err × ℚ :=
  let eAge := if age < 0 ∨ age > 120 then [Err.ageInvalide] else []
  let eSexe := if ¬(sexe = "homme" ∨ sexe = "femme") then [Err.sexeInvalide] else []
  let eTaille := if taille ≤ 0 ∨ taille > 300 then [Err.tailleInvalide] else []
  let ePoids := if poids ≤ 0 ∨ poids > 500 then [Err.poidsInvalide] else []
  let errs := eAge ++ eSexe ++ eTaille ++ ePoids
  (errs, 20 * errs.length)

/-- Step 2 (`# 2. Validation de la cohérence taille-âge-sexe`): silent
skip when the lookup returns `None`, else error and −15 when the height
is outside the matched range. -/
def etape2 (age : ℚ) (sexe : String) (taille : ℚ) : List Err × ℚ :=
  match obtenir_plage_taille age sexe with
  | some (min_taille, max_taille) =>
      if taille < min_taille ∨ taille > max_taille then ([Err.tailleIncoherente], 15)
      else ([], 0)
  | none => ([], 0)

/-- Step 3 (`# 3. Validation IMC`): extreme BMI error (−15), `elif`
unusual-BMI warning (−5). -/
def etape3 (taille poids : ℚ) : List Err × List Avert × ℚ :=
  let imc := poids / ((taille / 100) ^ 2)
  if imc < 10 ∨ imc > 50 then ([Err.imcExtreme], [], 15)
  else if imc < 13 ∨ imc > 40 then ([], [Avert.imcInhabituel], 5)
  else ([], [], 0)

/-- Step 4, waist ratio: runs only when `tour_taille` is present and
truthy (non-zero); error −10 outside the table range. -/
def etape4_tour_taille (tour_taille : Option ℚ) (taille : ℚ) : List Err × ℚ :=
  match tour_taille with
  | some tt =>
      if tt ≠ 0 then
        let ratio_tt := tt / taille
        if ratio_tt < ratios_normaux_tour_taille_taille.1 ∨
            ratio_tt > ratios_normaux_tour_taille_taille.2 then ([Err.ratioTourTaille], 10)
        else ([], 0)
      else ([], 0)
  | none => ([], 0)

/-- Step 4, span ratio: runs only when `envergure` is present and truthy;
error −10 more than 0.1 outside the table range, `elif` warning −3 when
merely outside the range. -/
def etape4_envergure (envergure : Option ℚ) (taille : ℚ) : List Err × List Avert × ℚ :=
  match envergure with
  | some env =>
      if env ≠ 0 then
        let ratio_env := env / taille
        if ratio_env < ratios_normaux_envergure_taille.1 - 1/10 ∨
            ratio_env > ratios_normaux_envergure_taille.2 + 1/10 then
          ([Err.ratioEnvergure], [], 10)
        else if ratio_env < ratios_normaux_envergure_taille.1 ∨
            ratio_env > ratios_normaux_envergure_taille.2 then
          ([], [Avert.envergureAtypique], 3)
        else ([], [], 0)
      else ([], [], 0)
  | none => ([], [], 0)

/-- Step 4, leg ratio: runs only when `longueur_jambe` is present and
truthy; error −10 outside the table range. -/
def etape4_longueur_jambe (longueur_jambe : Option ℚ) (taille : ℚ) : List Err × ℚ :=
  match longueur_jambe with
  | some lj =>
      if lj ≠ 0 then
        let ratio_jambe := lj / taille
        if ratio_jambe < ratios_normaux_longueur_jambe_taille.1 ∨
            ratio_jambe > ratios_normaux_longueur_jambe_taille.2 then ([Err.ratioJambe], 10)
        else ([], 0)
      else ([], 0)
  | none => ([], 0)

/-- Step 5 (`# 5. Validation de la cohérence poids-taille-âge`): adults
only (`age >= 18`); expected-weight window from BMI 16 and 35 with 0.8 /
1.2 slack, error −10 outside it. -/
def etape5 (age taille poids : ℚ) : List Err × ℚ :=
  if age ≥ 18 then
    let poids_min := 16 * ((taille / 100) ^ 2)
    let poids_max := 35 * ((taille / 100) ^ 2)
    if poids < poids_min * (8/10) ∨ poids > poids_max * (12/10) then
      ([Err.poidsAdulteIncoherent], 10)
    else ([], 0)
  else ([], 0)

/-- Step 6 (`# 6. Cohérence poids-taille pour enfants`): minors only
(`age < 18`); the estimate is used only when truthy (`if poids_attendu:`),
warning −5 when the relative deviation exceeds 0.5. -/
def etape6 (age taille poids : ℚ) (sexe : String) : List Avert × ℚ :=
  if age < 18 then
    let poids_attendu := estimer_poids_enfant age taille sexe
    if poids_attendu ≠ 0 then
      if |poids - poids_attendu| / poids_attendu > 1/2 then
        ([Avert.poidsEnfantInhabituel], 5)
      else ([], 0)
    else ([], 0)
  else ([], 0)

/-- Step 7 (`# 7. Validation des mesures corporelles multiples`): runs
only when both `tour_taille` and `envergure` are present and truthy;
error −10 when the waist exceeds the span. -/
def etape7 (tour_taille envergure : Option ℚ) : List Err × ℚ :=
  match tour_taille, envergure with
  | some tt, some env =>
      if tt ≠ 0 ∧ env ≠ 0 then
        if tt > env then ([Err.tourSupEnvergure], 10) else ([], 0)
      else ([], 0)
  | _, _ => ([], 0)

/-- Step 8 (`# 8. Validation longueur jambe vs envergure`): runs only
when both `longueur_jambe` and `envergure` are present and truthy; error
−10 when the leg exceeds the span. -/
def etape8 (longueur_jambe envergure : Option ℚ) : List Err × ℚ :=
  match longueur_jambe, envergure with
  | some lj, some env =>
      if lj ≠ 0 ∧ env ≠ 0 then
        if lj > env then ([Err.jambeSupEnvergure], 10) else ([], 0)
      else ([], 0)
  | _, _ => ([], 0)

/-- The body of `valider_donnees` after the required fields have been
extracted (source lines 81–219): lowercase the sex, run Step 1, return
early when it produced errors, otherwise run Steps 2–8, accumulate
errors / warnings / deductions in source order, and finalize with
`est_valide = len(erreurs) == 0` and `score = max(0, min(100, score))`. -/
def valider_corps (d : Donnees) (age : ℚ) (sexe0 : String) (taille poids : ℚ) :
    ValidationResult :=
  let sexe := minuscule sexe0
  let r1 := etape1 age sexe taille poids
  if r1.1 = [] then
    let r2 := etape2 age sexe taille
    let r3 := etape3 taille poids
    let r4t := etape4_tour_taille d.tour_taille taille
    let r4e := etape4_envergure d.envergure taille
    let r4j := etape4_longueur_jambe d.longueur_jambe taille
    let r5 := etape5 age taille poids
    let r6 := etape6 age taille poids sexe
    let r7 := etape7 d.tour_taille d.envergure
    let r8 := etape8 d.longueur_jambe d.envergure
    let erreurs := r2.1 ++ r3.1 ++ r4t.1 ++ r4e.1 ++ r4j.1 ++ r5.1 ++ r7.1 ++ r8.1
    let avertissements := r3.2.1 ++ r4e.2.1 ++ r6.1
    let score := 100 - r2.2 - r3.2.2 - r4t.2 - r4e.2.2 - r4j.2 - r5.2 - r6.2 - r7.2 - r8.2
    ⟨erreurs.isEmpty, erreurs, avertissements, max 0 (min 100 score)⟩
  else
    ⟨false, r1.1, [], max 0 (100 - r1.2)⟩

/-- `valider_donnees(donnees)`: Step 0 with its early return on any
missing required field (score `max(0, 100 - 25*missing)`, warnings still
empty), otherwise extract the four required values (all present, so the
`getD` defaults are never used) and run the rest of the body. -/
def valider_donnees (d : Donnees) : ValidationResult :=
  let em := erreurs_champs_manquants d
  if em = [] then
    valider_corps d (d.age.getD 0) (d.sexe.getD "") (d.taille.getD 0) (d.poids.getD 0)
  else
    ⟨false, em, [], max 0 (100 - 25 * em.length)⟩

/-! ### Basic evaluation lemmas -/

theorem minuscule_homme : minuscule "homme" = "homme" := by decide

theorem minuscule_femme : minuscule "femme" = "femme" := by decide

/-! ### Helper lemmas -/

theorem etape1_ok (a : ℚ) (s : String) (t p : ℚ)
    (ha1 : 0 ≤ a) (ha2 : a ≤ 120) (hs : s = "homme" ∨ s = "femme")
    (ht1 : 0 < t) (ht2 : t ≤ 300) (hp1 : 0 < p) (hp2 : p ≤ 500) :
    etape1 a s t p = ([], 0) := by
  have h1 : ¬(a < 0 ∨ a > 120) := by push_neg; exact ⟨ha1, ha2⟩
  have h3 : ¬(t ≤ 0 ∨ t > 300) := by push_neg; exact ⟨ht1, ht2⟩
  have h4 : ¬(p ≤ 0 ∨ p > 500) := by push_neg; exact ⟨hp1, hp2⟩
  rcases hs with rfl | rfl <;> simp [etape1, h1, h3, h4]

theorem valider_donnees_eq_corps (d : Donnees) (a : ℚ) (s : String) (t p : ℚ)
    (ha : d.age = some a) (hs : d.sexe = some s) (ht : d.taille = some t)
    (hp : d.poids = some p) :
    valider_donnees d = valider_corps d a s t p := by
  simp [valider_donnees, erreurs_champs_manquants, ha, hs, ht, hp]

theorem valider_corps_eq (d : Donnees) (a : ℚ) (s : String) (t p : ℚ)
    (h1 : (etape1 a (minuscule s) t p).1 = []) :
    valider_corps d a s t p =
      ⟨((etape2 a (minuscule s) t).1 ++ (etape3 t p).1 ++
          (etape4_tour_taille d.tour_taille t).1 ++ (etape4_envergure d.envergure t).1 ++
          (etape4_longueur_jambe d.longueur_jambe t).1 ++ (etape5 a t p).1 ++
          (etape7 d.tour_taille d.envergure).1 ++ (etape8 d.longueur_jambe d.envergure).1).isEmpty,
       (etape2 a (minuscule s) t).1 ++ (etape3 t p).1 ++
          (etape4_tour_taille d.tour_taille t).1 ++ (etape4_envergure d.envergure t).1 ++
          (etape4_longueur_jambe d.longueur_jambe t).1 ++ (etape5 a t p).1 ++
          (etape7 d.tour_taille d.envergure).1 ++ (etape8 d.longueur_jambe d.envergure).1,
       (etape3 t p).2.1 ++ (etape4_envergure d.envergure t).2.1 ++
          (etape6 a t p (minuscule s)).1,
       max 0 (min 100 (100 - (etape2 a (minuscule s) t).2 - (etape3 t p).2.2 -
          (etape4_tour_taille d.tour_taille t).2 - (etape4_envergure d.envergure t).2.2 -
          (etape4_longueur_jambe d.longueur_jambe t).2 - (etape5 a t p).2 -
          (etape6 a t p (minuscule s)).2 - (etape7 d.tour_taille d.envergure).2 -
          (etape8 d.longueur_jambe d.envergure).2))⟩ := by
  simp only [valider_corps, h1, if_pos]

theorem etape2_erreurs (a : ℚ) (s : String) (t : ℚ) :
    ∀ e ∈ (etape2 a s t).1, e = Err.tailleIncoherente := by
  intro e he
  unfold etape2 at he
  split at he
  · split at he <;> simp_all
  · simp_all

theorem etape3_erreurs (t p : ℚ) : ∀ e ∈ (etape3 t p).1, e = Err.imcExtreme := by
  intro e he
  unfold etape3 at he
  dsimp only at he
  split at he
  · simp_all
  · split at he <;> simp_all

theorem etape3_averts (t p : ℚ) : ∀ w ∈ (etape3 t p).2.1, w = Avert.imcInhabituel := by
  intro w hw
  unfold etape3 at hw
  dsimp only at hw
  split at hw
  · simp_all
  · split at hw <;> simp_all

theorem etape4_tour_taille_erreurs (o : Option ℚ) (t : ℚ) :
    ∀ e ∈ (etape4_tour_taille o t).1, e = Err.ratioTourTaille := by
  intro e he
  unfold etape4_tour_taille at he
  dsimp only at he
  split at he
  · split at he
    · split at he <;> simp_all
    · simp_all
  · simp_all

theorem etape4_envergure_erreurs (o : Option ℚ) (t : ℚ) :
    ∀ e ∈ (etape4_envergure o t).1, e = Err.ratioEnvergure := by
  intro e he
  unfold etape4_envergure at he
  dsimp only at he
  split at he
  · split at he
    · split at he
      · simp_all
      · split at he <;> simp_all
    · simp_all
  · simp_all

theorem etape4_envergure_averts (o : Option ℚ) (t : ℚ) :
    ∀ w ∈ (etape4_envergure o t).2.1, w = Avert.envergureAtypique := by
  intro w hw
  unfold etape4_envergure at hw
  dsimp only at hw
  split at hw
  · split at hw
    · split at hw
      · simp_all
      · split at hw <;> simp_all
    · simp_all
  · simp_all

theorem etape4_longueur_jambe_erreurs (o : Option ℚ) (t : ℚ) :
    ∀ e ∈ (etape4_longueur_jambe o t).1, e = Err.ratioJambe := by
  intro e he
  unfold etape4_longueur_jambe at he
  dsimp only at he
  split at he
  · split at he
    · split at he <;> simp_all
    · simp_all
  · simp_all

theorem etape5_erreurs (a t p : ℚ) : ∀ e ∈ (etape5 a t p).1, e = Err.poidsAdulteIncoherent := by
  intro e he
  unfold etape5 at he
  dsimp only at he
  split at he
  · split at he <;> simp_all
  · simp_all

theorem etape6_averts (a t p : ℚ) (s : String) :
    ∀ w ∈ (etape6 a t p s).1, w = Avert.poidsEnfantInhabituel := by
  intro w hw
  unfold etape6 at hw
  dsimp only at hw
  split at hw
  · split at hw
    · split at hw <;> simp_all
    · simp_all
  · simp_all

theorem etape7_erreurs (o1 o2 : Option ℚ) : ∀ e ∈ (etape7 o1 o2).1, e = Err.tourSupEnvergure := by
  intro e he
  unfold etape7 at he
  split at he
  · split at he
    · split at he <;> simp_all
    · simp_all
  · simp_all

theorem etape8_erreurs (o1 o2 : Option ℚ) : ∀ e ∈ (etape8 o1 o2).1, e = Err.jambeSupEnvergure := by
  intro e he
  unfold etape8 at he
  split at he
  · split at he
    · split at he <;> simp_all
    · simp_all
  · simp_all


theorem not_mem_of_all_eq {α : Type} {l : List α} {c x : α}
    (hall : ∀ e ∈ l, e = c) (hx : x ≠ c) : x ∉ l :=
  fun hm => hx (hall x hm)

theorem valider_donnees_reach (d : Donnees) (a : ℚ) (s : String) (t p : ℚ)
    (ha : d.age = some a) (hs : d.sexe = some s) (ht : d.taille = some t)
    (hp : d.poids = some p) (ha1 : 0 ≤ a) (ha2 : a ≤ 120)
    (hsx : minuscule s = "homme" ∨ minuscule s = "femme")
    (ht1 : 0 < t) (ht2 : t ≤ 300) (hp1 : 0 < p) (hp2 : p ≤ 500) :
    (valider_donnees d).erreurs =
      (etape2 a (minuscule s) t).1 ++ (etape3 t p).1 ++
      (etape4_tour_taille d.tour_taille t).1 ++ (etape4_envergure d.envergure t).1 ++
      (etape4_longueur_jambe d.longueur_jambe t).1 ++ (etape5 a t p).1 ++
      (etape7 d.tour_taille d.envergure).1 ++ (etape8 d.longueur_jambe d.envergure).1 ∧
    (valider_donnees d).avertissements =
      (etape3 t p).2.1 ++ (etape4_envergure d.envergure t).2.1 ++
      (etape6 a t p (minuscule s)).1 := by
  have h1 : etape1 a (minuscule s) t p = ([], 0) :=
    etape1_ok a (minuscule s) t p ha1 ha2 hsx ht1 ht2 hp1 hp2
  rw [valider_donnees_eq_corps d a s t p ha hs ht hp,
    valider_corps_eq d a s t p (by rw [h1])]
  exact ⟨rfl, rfl⟩

theorem etape4_envergure_carac (env t : ℚ) (hnz : env ≠ 0) :
    etape4_envergure (some env) t =
      if env / t < 98/100 - 10/100 ∨ env / t > 106/100 + 10/100 then
        ([Err.ratioEnvergure], [], 10)
      else if env / t < 98/100 ∨ env / t > 106/100 then
        ([], [Avert.envergureAtypique], 3)
      else ([], [], 0) := by
  simp only [etape4_envergure, ratios_normaux_envergure_taille, hnz, if_true,
    ite_not, if_neg, not_false_iff]
  norm_num


/-! ### Claim theorems -/

/-- C1: for every input record, the returned `ValidationResult` has
`est_valide` equal to the emptiness of its error list, on every return
path of `valider_donnees` (both early returns and the final return). -/
theorem spec_C1 (d : Donnees) :
    (valider_donnees d).est_valide = true ↔ (valider_donnees d).erreurs = [] := by
  simp only [valider_donnees, valider_corps]
  split
  · split
    · simp [List.isEmpty_iff]
    · rename_i h1
      simp [h1]
  · rename_i h
    simp [h]

/-- C2: for every input record, the coherence score of
`valider_donnees` lies in `[0, 100]`, on every return path. -/
theorem spec_C2 (d : Donnees) :
    0 ≤ (valider_donnees d).score_coherence ∧ (valider_donnees d).score_coherence ≤ 100 := by
  simp only [valider_donnees, valider_corps]
  split
  · split
    · exact ⟨le_max_left _ _, max_le (by norm_num) (min_le_left _ _)⟩
    · refine ⟨le_max_left _ _, max_le (by norm_num) ?_⟩
      rw [sub_le_self_iff]
      exact mul_nonneg (by norm_num) (Nat.cast_nonneg _)
  · refine ⟨le_max_left _ _, max_le (by norm_num) ?_⟩
    rw [sub_le_self_iff]
    exact mul_nonneg (by norm_num) (Nat.cast_nonneg _)

/-- C9: the coherent-adult scenario record `{age: 25, sexe: "homme",
taille: 178, poids: 75, tour_taille: 85, envergure: 180}` validates with
no errors, no warnings, and score exactly 100. -/
theorem spec_C9 :
    valider_donnees ⟨some 25, some "homme", some 178, some 75, some 85, some 180, none⟩ =
      ⟨true, [], [], 100⟩ := by
  norm_num [valider_donnees, erreurs_champs_manquants, valider_corps, minuscule_homme,
    etape1, etape2, etape3, etape4_tour_taille, etape4_envergure, etape4_longueur_jambe,
    etape5, etape6, etape7, etape8, obtenir_plage_taille, taille_normale,
    ratios_normaux_tour_taille_taille, ratios_normaux_envergure_taille,
    ratios_normaux_longueur_jambe_taille, estimer_poids_enfant, List.findSome?,
    Option.some_ne_none]



/-- C5: for every record reaching Step 4 with a present, non-zero arm
span, the span-ratio error fires iff the ratio is more than 0.10 outside
[0.98, 1.06] (deduction 10), the soft warning fires iff the ratio is
outside [0.98, 1.06] but within that 0.10 tolerance (deduction 3), and
the two never fire together. -/
theorem spec_C5 (d : Donnees) (a : ℚ) (s : String) (t p env : ℚ)
    (ha : d.age = some a) (hs : d.sexe = some s) (ht : d.taille = some t)
    (hp : d.poids = some p) (ha1 : 0 ≤ a) (ha2 : a ≤ 120)
    (hsx : minuscule s = "homme" ∨ minuscule s = "femme")
    (ht1 : 0 < t) (ht2 : t ≤ 300) (hp1 : 0 < p) (hp2 : p ≤ 500)
    (henv : d.envergure = some env) (hnz : env ≠ 0) :
    (Err.ratioEnvergure ∈ (valider_donnees d).erreurs ↔
      env / t < 98/100 - 10/100 ∨ env / t > 106/100 + 10/100) ∧
    (Avert.envergureAtypique ∈ (valider_donnees d).avertissements ↔
      (¬(env / t < 98/100 - 10/100 ∨ env / t > 106/100 + 10/100) ∧
        (env / t < 98/100 ∨ env / t > 106/100))) ∧
    ¬(Err.ratioEnvergure ∈ (valider_donnees d).erreurs ∧
      Avert.envergureAtypique ∈ (valider_donnees d).avertissements) ∧
    ((env / t < 98/100 - 10/100 ∨ env / t > 106/100 + 10/100) →
      etape4_envergure d.envergure t = ([Err.ratioEnvergure], [], 10)) ∧
    ((¬(env / t < 98/100 - 10/100 ∨ env / t > 106/100 + 10/100) ∧
        (env / t < 98/100 ∨ env / t > 106/100)) →
      etape4_envergure d.envergure t = ([], [Avert.envergureAtypique], 3)) := by
  obtain ⟨he, hw⟩ := valider_donnees_reach d a s t p ha hs ht hp ha1 ha2 hsx ht1 ht2 hp1 hp2
  rw [henv] at he hw ⊢
  have n2 := not_mem_of_all_eq (etape2_erreurs a (minuscule s) t)
    (show Err.ratioEnvergure ≠ Err.tailleIncoherente by decide)
  have n3 := not_mem_of_all_eq (etape3_erreurs t p)
    (show Err.ratioEnvergure ≠ Err.imcExtreme by decide)
  have n4t := not_mem_of_all_eq (etape4_tour_taille_erreurs d.tour_taille t)
    (show Err.ratioEnvergure ≠ Err.ratioTourTaille by decide)
  have n4j := not_mem_of_all_eq (etape4_longueur_jambe_erreurs d.longueur_jambe t)
    (show Err.ratioEnvergure ≠ Err.ratioJambe by decide)
  have n5 := not_mem_of_all_eq (etape5_erreurs a t p)
    (show Err.ratioEnvergure ≠ Err.poidsAdulteIncoherent by decide)
  have n7 := not_mem_of_all_eq (etape7_erreurs d.tour_taille (some env))
    (show Err.ratioEnvergure ≠ Err.tourSupEnvergure by decide)
  have n8 := not_mem_of_all_eq (etape8_erreurs d.longueur_jambe (some env))
    (show Err.ratioEnvergure ≠ Err.jambeSupEnvergure by decide)
  have w3 := not_mem_of_all_eq (etape3_averts t p)
    (show Avert.envergureAtypique ≠ Avert.imcInhabituel by decide)
  have w6 := not_mem_of_all_eq (etape6_averts a t p (minuscule s))
    (show Avert.envergureAtypique ≠ Avert.poidsEnfantInhabituel by decide)
  have hme : Err.ratioEnvergure ∈ (valider_donnees d).erreurs ↔
      Err.ratioEnvergure ∈ (etape4_envergure (some env) t).1 := by
    rw [he]
    simp [List.mem_append, n2, n3, n4t, n4j, n5, n7, n8]
  have hmw : Avert.envergureAtypique ∈ (valider_donnees d).avertissements ↔
      Avert.envergureAtypique ∈ (etape4_envergure (some env) t).2.1 := by
    rw [hw]
    simp [List.mem_append, w3, w6]
  rw [etape4_envergure_carac env t hnz] at hme hmw ⊢
  by_cases hc1 : env / t < 98/100 - 10/100 ∨ env / t > 106/100 + 10/100
  · simp only [hc1, if_pos] at hme hmw ⊢
    simp_all
  · rw [if_neg hc1] at hme hmw ⊢
    by_cases hc2 : env / t < 98/100 ∨ env / t > 106/100
    · simp only [hc2, if_pos] at hme hmw ⊢
      simp_all
    · rw [if_neg hc2] at hme hmw ⊢
      simp_all


theorem etape3_carac (t p : ℚ) :
    etape3 t p =
      if p / ((t / 100) ^ 2) < 10 ∨ p / ((t / 100) ^ 2) > 50 then ([Err.imcExtreme], [], 15)
      else if p / ((t / 100) ^ 2) < 13 ∨ p / ((t / 100) ^ 2) > 40 then
        ([], [Avert.imcInhabituel], 5)
      else ([], [], 0) := rfl

/-- C6: for every record reaching Step 3, the extreme-BMI error and the
unusual-BMI warning are mutually exclusive: a BMI outside [10, 50]
triggers only the error, a BMI inside [10, 50] but below 13 or above 40
triggers only the warning. -/
theorem spec_C6 (d : Donnees) (a : ℚ) (s : String) (t p : ℚ)
    (ha : d.age = some a) (hs : d.sexe = some s) (ht : d.taille = some t)
    (hp : d.poids = some p) (ha1 : 0 ≤ a) (ha2 : a ≤ 120)
    (hsx : minuscule s = "homme" ∨ minuscule s = "femme")
    (ht1 : 0 < t) (ht2 : t ≤ 300) (hp1 : 0 < p) (hp2 : p ≤ 500) :
    ¬(Err.imcExtreme ∈ (valider_donnees d).erreurs ∧
      Avert.imcInhabituel ∈ (valider_donnees d).avertissements) ∧
    ((p / ((t / 100) ^ 2) < 10 ∨ p / ((t / 100) ^ 2) > 50) →
      Err.imcExtreme ∈ (valider_donnees d).erreurs ∧
      Avert.imcInhabituel ∉ (valider_donnees d).avertissements) ∧
    (¬(p / ((t / 100) ^ 2) < 10 ∨ p / ((t / 100) ^ 2) > 50) →
      (p / ((t / 100) ^ 2) < 13 ∨ p / ((t / 100) ^ 2) > 40) →
      Avert.imcInhabituel ∈ (valider_donnees d).avertissements ∧
      Err.imcExtreme ∉ (valider_donnees d).erreurs) := by
  obtain ⟨he, hw⟩ := valider_donnees_reach d a s t p ha hs ht hp ha1 ha2 hsx ht1 ht2 hp1 hp2
  have n2 := not_mem_of_all_eq (etape2_erreurs a (minuscule s) t)
    (show Err.imcExtreme ≠ Err.tailleIncoherente by decide)
  have n4t := not_mem_of_all_eq (etape4_tour_taille_erreurs d.tour_taille t)
    (show Err.imcExtreme ≠ Err.ratioTourTaille by decide)
  have n4e := not_mem_of_all_eq (etape4_envergure_erreurs d.envergure t)
    (show Err.imcExtreme ≠ Err.ratioEnvergure by decide)
  have n4j := not_mem_of_all_eq (etape4_longueur_jambe_erreurs d.longueur_jambe t)
    (show Err.imcExtreme ≠ Err.ratioJambe by decide)
  have n5 := not_mem_of_all_eq (etape5_erreurs a t p)
    (show Err.imcExtreme ≠ Err.poidsAdulteIncoherent by decide)
  have n7 := not_mem_of_all_eq (etape7_erreurs d.tour_taille d.envergure)
    (show Err.imcExtreme ≠ Err.tourSupEnvergure by decide)
  have n8 := not_mem_of_all_eq (etape8_erreurs d.longueur_jambe d.envergure)
    (show Err.imcExtreme ≠ Err.jambeSupEnvergure by decide)
  have w4e := not_mem_of_all_eq (etape4_envergure_averts d.envergure t)
    (show Avert.imcInhabituel ≠ Avert.envergureAtypique by decide)
  have w6 := not_mem_of_all_eq (etape6_averts a t p (minuscule s))
    (show Avert.imcInhabituel ≠ Avert.poidsEnfantInhabituel by decide)
  have hme : Err.imcExtreme ∈ (valider_donnees d).erreurs ↔
      Err.imcExtreme ∈ (etape3 t p).1 := by
    rw [he]
    simp [List.mem_append, n2, n4t, n4e, n4j, n5, n7, n8]
  have hmw : Avert.imcInhabituel ∈ (valider_donnees d).avertissements ↔
      Avert.imcInhabituel ∈ (etape3 t p).2.1 := by
    rw [hw]
    simp [List.mem_append, w4e, w6]
  rw [etape3_carac] at hme hmw
  by_cases hc1 : p / ((t / 100) ^ 2) < 10 ∨ p / ((t / 100) ^ 2) > 50
  · rw [if_pos hc1] at hme hmw
    simp_all
  · rw [if_neg hc1] at hme hmw
    by_cases hc2 : p / ((t / 100) ^ 2) < 13 ∨ p / ((t / 100) ^ 2) > 40
    · rw [if_pos hc2] at hme hmw
      simp_all
    · rw [if_neg hc2] at hme hmw
      simp_all

/-- C8: on the validated input domain (0 ≤ age < 18, 0 < height ≤ 300)
the child-weight estimator equals the documented piecewise formula and
is strictly positive, so Step 6's truthiness guard never skips and its
relative-deviation division is never by zero. -/
theorem spec_C8 (a t : ℚ) (s : String) (ha0 : 0 ≤ a) (ha18 : a < 18)
    (ht1 : 0 < t) (ht2 : t ≤ 300) :
    0 < estimer_poids_enfant a t s ∧
    (a < 2 → estimer_poids_enfant a t s = 3 * a + 7) ∧
    (2 ≤ a → a < 12 → estimer_poids_enfant a t s = 2 * a + 8) ∧
    (12 ≤ a → estimer_poids_enfant a t s = 19 * (t / 100) ^ 2) ∧
    (∀ p : ℚ, etape6 a t p s =
      if |p - estimer_poids_enfant a t s| / estimer_poids_enfant a t s > 1/2 then
        ([Avert.poidsEnfantInhabituel], 5)
      else ([], 0)) := by
  have hsq : (0:ℚ) < (t / 100) ^ 2 := by
    have : (0:ℚ) < t / 100 := by positivity
    positivity
  have hpos : 0 < estimer_poids_enfant a t s := by
    unfold estimer_poids_enfant
    split
    · linarith
    · split
      · linarith
      · linarith
  refine ⟨hpos, ?_, ?_, ?_, ?_⟩
  · intro h2
    simp [estimer_poids_enfant, h2, mul_comm]
  · intro h2 h12
    rw [estimer_poids_enfant, if_neg (not_lt.2 h2), if_pos h12]
    ring
  · intro h12
    rw [estimer_poids_enfant, if_neg (by linarith : ¬(a < 2)), if_neg (not_lt.2 h12)]
  · intro p
    rw [etape6, if_pos ha18, if_pos (ne_of_gt hpos)]


/-- C10 counterexample: a record whose waist circumference (85) and arm
span (0) are both present, with waist > span, yet `valider_donnees`
emits no waist-exceeds-span error — presence alone is not the code's
precondition; the measurements must also be non-zero (truthy). -/
theorem spec_C10_contre :
    (Donnees.tour_taille ⟨some 25, some "homme", some 178, some 75, some 85, some 0, none⟩
      = some 85) ∧
    (Donnees.envergure ⟨some 25, some "homme", some 178, some 75, some 85, some 0, none⟩
      = some 0) ∧
    (85 : ℚ) > 0 ∧
    Err.tourSupEnvergure ∉
      (valider_donnees ⟨some 25, some "homme", some 178, some 75, some 85, some 0, none⟩).erreurs := by
  refine ⟨rfl, rfl, by norm_num, ?_⟩
  norm_num [valider_donnees, erreurs_champs_manquants, valider_corps, minuscule_homme,
    etape1, etape2, etape3, etape4_tour_taille, etape4_envergure, etape4_longueur_jambe,
    etape5, etape6, etape7, etape8, obtenir_plage_taille, taille_normale,
    ratios_normaux_tour_taille_taille, ratios_normaux_envergure_taille,
    ratios_normaux_longueur_jambe_taille, estimer_poids_enfant, List.findSome?,
    Option.some_ne_none]

/-- C10 as amended: for every record reaching Step 7, the
waist-exceeds-span error (deduction 10) fires iff both measurements are
present AND non-zero and waist > span; likewise the leg-exceeds-span
error for leg length vs arm span. -/
theorem spec_C10_amende (d : Donnees) (a : ℚ) (s : String) (t p : ℚ)
    (ha : d.age = some a) (hs : d.sexe = some s) (ht : d.taille = some t)
    (hp : d.poids = some p) (ha1 : 0 ≤ a) (ha2 : a ≤ 120)
    (hsx : minuscule s = "homme" ∨ minuscule s = "femme")
    (ht1 : 0 < t) (ht2 : t ≤ 300) (hp1 : 0 < p) (hp2 : p ≤ 500) :
    (∀ tt env : ℚ, d.tour_taille = some tt → d.envergure = some env → tt ≠ 0 → env ≠ 0 →
      ((Err.tourSupEnvergure ∈ (valider_donnees d).erreurs ↔ tt > env) ∧
        (tt > env → etape7 d.tour_taille d.envergure = ([Err.tourSupEnvergure], 10)))) ∧
    (∀ lj env : ℚ, d.longueur_jambe = some lj → d.envergure = some env → lj ≠ 0 → env ≠ 0 →
      ((Err.jambeSupEnvergure ∈ (valider_donnees d).erreurs ↔ lj > env) ∧
        (lj > env → etape8 d.longueur_jambe d.envergure = ([Err.jambeSupEnvergure], 10)))) := by
  obtain ⟨he, hw⟩ := valider_donnees_reach d a s t p ha hs ht hp ha1 ha2 hsx ht1 ht2 hp1 hp2
  have n2 : ∀ x : Err, x ≠ Err.tailleIncoherente → x ∉ (etape2 a (minuscule s) t).1 :=
    fun _ hx => not_mem_of_all_eq (etape2_erreurs a (minuscule s) t) hx
  have n3 : ∀ x : Err, x ≠ Err.imcExtreme → x ∉ (etape3 t p).1 :=
    fun _ hx => not_mem_of_all_eq (etape3_erreurs t p) hx
  have n4t : ∀ x : Err, x ≠ Err.ratioTourTaille → x ∉ (etape4_tour_taille d.tour_taille t).1 :=
    fun _ hx => not_mem_of_all_eq (etape4_tour_taille_erreurs d.tour_taille t) hx
  have n4e : ∀ x : Err, x ≠ Err.ratioEnvergure → x ∉ (etape4_envergure d.envergure t).1 :=
    fun _ hx => not_mem_of_all_eq (etape4_envergure_erreurs d.envergure t) hx
  have n4j : ∀ x : Err, x ≠ Err.ratioJambe → x ∉ (etape4_longueur_jambe d.longueur_jambe t).1 :=
    fun _ hx => not_mem_of_all_eq (etape4_longueur_jambe_erreurs d.longueur_jambe t) hx
  have n5 : ∀ x : Err, x ≠ Err.poidsAdulteIncoherent → x ∉ (etape5 a t p).1 :=
    fun _ hx => not_mem_of_all_eq (etape5_erreurs a t p) hx
  have n7 : ∀ x : Err, x ≠ Err.tourSupEnvergure → x ∉ (etape7 d.tour_taille d.envergure).1 :=
    fun _ hx => not_mem_of_all_eq (etape7_erreurs d.tour_taille d.envergure) hx
  have n8 : ∀ x : Err, x ≠ Err.jambeSupEnvergure → x ∉ (etape8 d.longueur_jambe d.envergure).1 :=
    fun _ hx => not_mem_of_all_eq (etape8_erreurs d.longueur_jambe d.envergure) hx
  constructor
  · intro tt env htt henv htt0 henv0
    have h7 : etape7 d.tour_taille d.envergure =
        if tt > env then ([Err.tourSupEnvergure], 10) else ([], 0) := by
      rw [htt, henv]
      simp [etape7, htt0, henv0]
    have hme : Err.tourSupEnvergure ∈ (valider_donnees d).erreurs ↔
        Err.tourSupEnvergure ∈ (etape7 d.tour_taille d.envergure).1 := by
      rw [he]
      simp [List.mem_append, n2 Err.tourSupEnvergure (by decide),
        n3 Err.tourSupEnvergure (by decide), n4t Err.tourSupEnvergure (by decide),
        n4e Err.tourSupEnvergure (by decide), n4j Err.tourSupEnvergure (by decide),
        n5 Err.tourSupEnvergure (by decide), n8 Err.tourSupEnvergure (by decide)]
    rw [h7] at hme
    constructor
    · rw [hme]
      by_cases hgt : tt > env
      · simp [hgt]
      · simp [hgt]
    · intro hgt
      rw [h7, if_pos hgt]
  · intro lj env hlj henv hlj0 henv0
    have h8 : etape8 d.longueur_jambe d.envergure =
        if lj > env then ([Err.jambeSupEnvergure], 10) else ([], 0) := by
      rw [hlj, henv]
      simp [etape8, hlj0, henv0]
    have hme : Err.jambeSupEnvergure ∈ (valider_donnees d).erreurs ↔
        Err.jambeSupEnvergure ∈ (etape8 d.longueur_jambe d.envergure).1 := by
      rw [he]
      simp [List.mem_append, n2 Err.jambeSupEnvergure (by decide),
        n3 Err.jambeSupEnvergure (by decide), n4t Err.jambeSupEnvergure (by decide),
        n4e Err.jambeSupEnvergure (by decide), n4j Err.jambeSupEnvergure (by decide),
        n5 Err.jambeSupEnvergure (by decide), n7 Err.jambeSupEnvergure (by decide)]
    rw [h8] at hme
    constructor
    · rw [hme]
      by_cases hgt : lj > env
      · simp [hgt]
      · simp [hgt]
    · intro hgt
      rw [h8, if_pos hgt]


/-- The six half-open age intervals (0,2), (2,5), (5,10), (10,15),
(15,20), (20,150) are pairwise non-overlapping and collectively cover
[0, 150): every age in [0, 150) lies in exactly one of them, and the
first-match linear scan therefore succeeds. -/
theorem intervalles_couvrent (age : ℚ) (h0 : 0 ≤ age) (h150 : age < 150)
    (v1 v2 v3 v4 v5 v6 : ℚ × ℚ) :
    (([((0,2),v1), ((2,5),v2), ((5,10),v3), ((10,15),v4), ((15,20),v5), ((20,150),v6)] :
        List ((ℚ × ℚ) × (ℚ × ℚ))).countP
      (fun entree => decide (entree.1.1 ≤ age ∧ age < entree.1.2))) = 1 ∧
    (([((0,2),v1), ((2,5),v2), ((5,10),v3), ((10,15),v4), ((15,20),v5), ((20,150),v6)] :
        List ((ℚ × ℚ) × (ℚ × ℚ))).findSome?
      (fun entree => if entree.1.1 ≤ age ∧ age < entree.1.2 then some entree.2
        else none)).isSome = true := by
  rcases lt_or_le age 2 with r1 | r1
  · have f2 : ¬((2:ℚ) ≤ age) := not_le.mpr r1
    have f5 : ¬((5:ℚ) ≤ age) := by intro h; linarith
    have f10 : ¬((10:ℚ) ≤ age) := by intro h; linarith
    have f15 : ¬((15:ℚ) ≤ age) := by intro h; linarith
    have f20 : ¬((20:ℚ) ≤ age) := by intro h; linarith
    constructor
    · simp [List.countP_cons, h0, r1, f2, f5, f10, f15, f20]
    · simp [List.findSome?, h0, r1, f2, f5, f10, f15, f20]
  · rcases lt_or_le age 5 with r2 | r2
    · have g1 : ¬(age < 2) := not_lt.mpr r1
      have f5 : ¬((5:ℚ) ≤ age) := not_le.mpr r2
      have f10 : ¬((10:ℚ) ≤ age) := by intro h; linarith
      have f15 : ¬((15:ℚ) ≤ age) := by intro h; linarith
      have f20 : ¬((20:ℚ) ≤ age) := by intro h; linarith
      constructor
      · simp [List.countP_cons, g1, r1, r2, f5, f10, f15, f20]
      · simp [List.findSome?, g1, r1, r2, f5, f10, f15, f20]
    · rcases lt_or_le age 10 with r3 | r3
      · have g1 : ¬(age < 2) := not_lt.mpr (by linarith)
        have g2 : ¬(age < 5) := not_lt.mpr r2
        have f10 : ¬((10:ℚ) ≤ age) := not_le.mpr r3
        have f15 : ¬((15:ℚ) ≤ age) := by intro h; linarith
        have f20 : ¬((20:ℚ) ≤ age) := by intro h; linarith
        constructor
        · simp [List.countP_cons, g1, g2, r2, r3, f10, f15, f20]
        · simp [List.findSome?, g1, g2, r2, r3, f10, f15, f20]
      · rcases lt_or_le age 15 with r4 | r4
        · have g1 : ¬(age < 2) := not_lt.mpr (by linarith)
          have g2 : ¬(age < 5) := not_lt.mpr (by linarith)
          have g3 : ¬(age < 10) := not_lt.mpr r3
          have f15 : ¬((15:ℚ) ≤ age) := not_le.mpr r4
          have f20 : ¬((20:ℚ) ≤ age) := by intro h; linarith
          constructor
          · simp [List.countP_cons, g1, g2, g3, r3, r4, f15, f20]
          · simp [List.findSome?, g1, g2, g3, r3, r4, f15, f20]
        · rcases lt_or_le age 20 with r5 | r5
          · have g1 : ¬(age < 2) := not_lt.mpr (by linarith)
            have g2 : ¬(age < 5) := not_lt.mpr (by linarith)
            have g3 : ¬(age < 10) := not_lt.mpr (by linarith)
            have g4 : ¬(age < 15) := not_lt.mpr r4
            constructor
            · simp [List.countP_cons, g1, g2, g3, g4, r4, r5]
            · simp [List.findSome?, g1, g2, g3, g4, r4, r5]
          · have g1 : ¬(age < 2) := not_lt.mpr (by linarith)
            have g2 : ¬(age < 5) := not_lt.mpr (by linarith)
            have g3 : ¬(age < 10) := not_lt.mpr (by linarith)
            have g4 : ¬(age < 15) := not_lt.mpr (by linarith)
            have g5 : ¬(age < 20) := not_lt.mpr r5
            constructor
            · simp [List.countP_cons, g1, g2, g3, g4, g5, r5, h150]
            · simp [List.findSome?, g1, g2, g3, g4, g5, r5, h150]

/-- C7: for each recognized sex, the height-range table's age intervals
are pairwise non-overlapping and cover [0, 150) — every age in that
range matches exactly one entry — and the height-range lookup therefore
always returns a match (so Step 2's silent-skip branch is never taken
for a record that passed Step 1). -/
theorem spec_C7 (sexe : String) (hsx : sexe = "homme" ∨ sexe = "femme") (age : ℚ)
    (h0 : 0 ≤ age) (h150 : age < 150) :
    ((taille_normale sexe).countP
      (fun entree => decide (entree.1.1 ≤ age ∧ age < entree.1.2))) = 1 ∧
    (obtenir_plage_taille age sexe).isSome = true := by
  have hop : obtenir_plage_taille age sexe = (taille_normale sexe).findSome?
      (fun entree => if entree.1.1 ≤ age ∧ age < entree.1.2 then some entree.2 else none) := by
    unfold obtenir_plage_taille
    rw [if_pos hsx]
  rw [hop]
  rcases hsx with rfl | rfl
  · rw [show taille_normale "homme" =
        [((0,2),((50:ℚ),(90:ℚ))), ((2,5),(85,115)), ((5,10),(105,145)),
         ((10,15),(130,180)), ((15,20),(155,200)), ((20,150),(150,210))] from rfl]
    exact intervalles_couvrent age h0 h150 _ _ _ _ _ _
  · rw [show taille_normale "femme" =
        [((0,2),((48:ℚ),(88:ℚ))), ((2,5),(83,112)), ((5,10),(103,142)),
         ((10,15),(130,175)), ((15,20),(150,185)), ((20,150),(145,195))] from rfl]
    exact intervalles_couvrent age h0 h150 _ _ _ _ _ _


/-- C3: a record missing at least one required field short-circuits:
`valider_donnees` returns invalid, exactly one missing-field error per
missing key (in the order age, sexe, taille, poids) and nothing else,
an empty warnings list, and score max(0, 100 − 25·k) where k ≥ 1 is the
number of missing keys. -/
theorem spec_C3 (d : Donnees)
    (h : d.age = none ∨ d.sexe = none ∨ d.taille = none ∨ d.poids = none) :
    (valider_donnees d).est_valide = false ∧
    (valider_donnees d).erreurs =
      (if d.age = none then [Err.champManquant "age"] else []) ++
      (if d.sexe = none then [Err.champManquant "sexe"] else []) ++
      (if d.taille = none then [Err.champManquant "taille"] else []) ++
      (if d.poids = none then [Err.champManquant "poids"] else []) ∧
    (valider_donnees d).erreurs.length =
      (if d.age = none then 1 else 0) + (if d.sexe = none then 1 else 0) +
      (if d.taille = none then 1 else 0) + (if d.poids = none then 1 else 0) ∧
    (valider_donnees d).avertissements = [] ∧
    (valider_donnees d).score_coherence =
      max 0 (100 - 25 * (((if d.age = none then 1 else 0) + (if d.sexe = none then 1 else 0) +
        (if d.taille = none then 1 else 0) + (if d.poids = none then 1 else 0) : ℕ) : ℚ)) ∧
    1 ≤ (if d.age = none then 1 else 0) + (if d.sexe = none then 1 else 0) +
      (if d.taille = none then 1 else 0) + (if d.poids = none then 1 else 0) := by
  have hem : ¬(erreurs_champs_manquants d = []) := by
    unfold erreurs_champs_manquants
    rcases h with h | h | h | h <;> simp [h]
  have hlen : (erreurs_champs_manquants d).length =
      (if d.age = none then 1 else 0) + (if d.sexe = none then 1 else 0) +
      (if d.taille = none then 1 else 0) + (if d.poids = none then 1 else 0) := by
    unfold erreurs_champs_manquants
    simp [List.length_append, apply_ite List.length]
    omega
  have hk : ¬((if d.age = none then 1 else 0) + (if d.sexe = none then 1 else 0) +
      (if d.taille = none then 1 else 0) + (if d.poids = none then 1 else 0) = 0) := by
    rcases h with h | h | h | h <;> simp [h]
  simp only [valider_donnees]
  rw [if_neg hem]
  refine ⟨rfl, rfl, ?_, rfl, ?_, ?_⟩
  · exact hlen
  · rw [hlen]
  · omega

/-- C4: a record whose required fields are present with sex, height and
weight within the Step-1 bounds but age = 150 short-circuits after
Step 1: invalid, exactly one error (the age bound), no warnings, score
80, regardless of the optional measurements. -/
theorem spec_C4 (d : Donnees) (s : String) (t p : ℚ)
    (hage : d.age = some 150) (hsexe : d.sexe = some s)
    (hs : minuscule s = "homme" ∨ minuscule s = "femme")
    (htaille : d.taille = some t) (ht1 : 0 < t) (ht2 : t ≤ 300)
    (hpoids : d.poids = some p) (hp1 : 0 < p) (hp2 : p ≤ 500) :
    valider_donnees d = ⟨false, [Err.ageInvalide], [], 80⟩ := by
  rw [valider_donnees_eq_corps d 150 s t p hage hsexe htaille hpoids]
  have h1 : etape1 150 (minuscule s) t p = ([Err.ageInvalide], 20) := by
    have hA : (150:ℚ) < 0 ∨ (150:ℚ) > 120 := Or.inr (by norm_num)
    have h3 : ¬(t ≤ 0 ∨ t > 300) := by push_neg; exact ⟨ht1, ht2⟩
    have h4 : ¬(p ≤ 0 ∨ p > 500) := by push_neg; exact ⟨hp1, hp2⟩
    rcases hs with hss | hss <;> rw [hss] <;> simp [etape1, hA, h3, h4]
  simp [valider_corps, h1]
  norm_num

/-! ### Witnesses: the claim theorems applied at concrete records -/

theorem spec_C3_temoin :
    (valider_donnees ⟨none, some "homme", some 178, some 75, none, none, none⟩).est_valide
        = false ∧
    (valider_donnees ⟨none, some "homme", some 178, some 75, none, none, none⟩).erreurs
        = [Err.champManquant "age"] ∧
    (valider_donnees ⟨none, some "homme", some 178, some 75, none, none, none⟩).avertissements
        = [] ∧
    (valider_donnees ⟨none, some "homme", some 178, some 75, none, none, none⟩).score_coherence
        = 75 := by
  have h := spec_C3 ⟨none, some "homme", some 178, some 75, none, none, none⟩ (Or.inl rfl)
  norm_num [max_def, Option.some_ne_none] at h
  exact ⟨h.1, h.2.1, h.2.2.2.1, h.2.2.2.2⟩

theorem spec_C4_temoin :
    valider_donnees ⟨some 150, some "homme", some 178, some 75, none, none, none⟩ =
      ⟨false, [Err.ageInvalide], [], 80⟩ :=
  spec_C4 _ "homme" 178 75 rfl rfl (Or.inl (by decide)) rfl (by norm_num) (by norm_num)
    rfl (by norm_num) (by norm_num)

theorem spec_C5_temoin :
    Err.ratioEnvergure ∉
      (valider_donnees ⟨some 25, some "homme", some 178, some 75, none, some 180,
        none⟩).erreurs ∧
    Avert.envergureAtypique ∉
      (valider_donnees ⟨some 25, some "homme", some 178, some 75, none, some 180,
        none⟩).avertissements := by
  have h := spec_C5 ⟨some 25, some "homme", some 178, some 75, none, some 180, none⟩
    25 "homme" 178 75 180 rfl rfl rfl rfl (by norm_num) (by norm_num)
    (Or.inl (by decide)) (by norm_num) (by norm_num) (by norm_num) (by norm_num)
    rfl (by norm_num)
  refine ⟨fun hmem => ?_, fun hmem => ?_⟩
  · have hc := h.1.mp hmem
    norm_num at hc
  · have hc := h.2.1.mp hmem
    norm_num at hc

theorem spec_C6_temoin :
    ¬(Err.imcExtreme ∈
        (valider_donnees ⟨some 25, some "homme", some 178, some 75, none, none,
          none⟩).erreurs ∧
      Avert.imcInhabituel ∈
        (valider_donnees ⟨some 25, some "homme", some 178, some 75, none, none,
          none⟩).avertissements) :=
  (spec_C6 ⟨some 25, some "homme", some 178, some 75, none, none, none⟩ 25 "homme" 178 75
    rfl rfl rfl rfl (by norm_num) (by norm_num) (Or.inl (by decide))
    (by norm_num) (by norm_num) (by norm_num) (by norm_num)).1

theorem spec_C7_temoin :
    ((taille_normale "homme").countP
      (fun entree => decide (entree.1.1 ≤ (25:ℚ) ∧ (25:ℚ) < entree.1.2))) = 1 ∧
    (obtenir_plage_taille 25 "homme").isSome = true :=
  spec_C7 "homme" (Or.inl rfl) 25 (by norm_num) (by norm_num)

theorem spec_C8_temoin : 0 < estimer_poids_enfant 10 140 "homme" :=
  (spec_C8 10 140 "homme" (by norm_num) (by norm_num) (by norm_num) (by norm_num)).1

theorem spec_C10_temoin :
    Err.tourSupEnvergure ∉
      (valider_donnees ⟨some 25, some "homme", some 178, some 75, some 85, some 180,
        none⟩).erreurs := by
  have h := (spec_C10_amende ⟨some 25, some "homme", some 178, some 75, some 85, some 180, none⟩
    25 "homme" 178 75 rfl rfl rfl rfl (by norm_num) (by norm_num) (Or.inl (by decide))
    (by norm_num) (by norm_num) (by norm_num) (by norm_num)).1 85 180 rfl rfl
    (by norm_num) (by norm_num)
  rw [h.1]
  norm_num

end Script
